import Mathlib

/-!
Shallow embedding of the synchronization backend (token lifecycle,
paginated fetch, reconciliation, storage write) and proofs of the
spec's testable properties against it.

Python dictionaries are embedded as association lists with in-place
update semantics (`lookupA` / `setA`): updating a present key keeps its
position, a new key is appended, matching CPython dict insertion order.
Machine-level concerns (clock, network, database) appear as explicit
parameters: time is a `Nat` of seconds, the network is an oracle
function, and per-record database writes are a Boolean oracle.
-/

/-- Lookup in an association list; embeds Python `d.get(k)` / `k in d`. -/
def lookupA {α : Type} : List (String × α) → String → Option α
  | [], _ => none
  | (k, v) :: rest, key => if k = key then some v else lookupA rest key

/-- Update in an association list; embeds Python `d[k] = v` (in-place on
a present key, appended otherwise, as CPython dicts order entries). -/
def setA {α : Type} : List (String × α) → String → α → List (String × α)
  | [], key, val => [(key, val)]
  | (k, v) :: rest, key, val =>
      if k = key then (k, val) :: rest else (k, v) :: setA rest key val

theorem lookupA_setA_self {α : Type} (m : List (String × α)) (k : String) (v : α) :
    lookupA (setA m k v) k = some v := by
  induction m with
  | nil => simp [setA, lookupA]
  | cons hd tl ih =>
      obtain ⟨k0, v0⟩ := hd
      by_cases hk : k0 = k
      · simp [setA, hk, lookupA]
      · simp [setA, hk, lookupA, ih]

theorem lookupA_setA_other {α : Type} (m : List (String × α)) (k j : String) (v : α)
    (hne : k ≠ j) : lookupA (setA m k v) j = lookupA m j := by
  induction m with
  | nil => simp [setA, lookupA, hne]
  | cons hd tl ih =>
      obtain ⟨k0, v0⟩ := hd
      by_cases hk : k0 = k
      · subst hk; simp [setA, lookupA, hne]
      · simp [setA, hk, lookupA, ih]

theorem keys_setA_present {α : Type} (m : List (String × α)) (k : String) (v : α)
    (h : (lookupA m k).isSome) :
    (setA m k v).map Prod.fst = m.map Prod.fst := by
  induction m with
  | nil => simp [lookupA] at h
  | cons hd tl ih =>
      obtain ⟨k0, v0⟩ := hd
      by_cases hk : k0 = k
      · simp [setA, hk]
      · simp [lookupA, hk] at h
        simp [setA, hk, ih h]

theorem keys_setA_absent {α : Type} (m : List (String × α)) (k : String) (v : α)
    (h : lookupA m k = none) :
    (setA m k v).map Prod.fst = m.map Prod.fst ++ [k] := by
  induction m with
  | nil => simp [setA]
  | cons hd tl ih =>
      obtain ⟨k0, v0⟩ := hd
      by_cases hk : k0 = k
      · simp [lookupA, hk] at h
      · simp [lookupA, hk] at h
        simp [setA, hk, ih h]

theorem mem_setA {α : Type} (m : List (String × α)) (k : String) (v : α)
    (e : String × α) (he : e ∈ setA m k v) : e = (k, v) ∨ e ∈ m := by
  induction m with
  | nil => simp [setA] at he; simp [he]
  | cons hd tl ih =>
      obtain ⟨k0, v0⟩ := hd
      by_cases hk : k0 = k
      · subst hk
        simp [setA] at he
        rcases he with h | h
        · exact Or.inl (by simp [h])
        · exact Or.inr (by simp [h])
      · simp [setA, hk] at he
        rcases he with h | h
        · exact Or.inr (by simp [h])
        · rcases ih h with h1 | h1
          · exact Or.inl h1
          · exact Or.inr (by simp [h1])

theorem lookupA_none_of_not_mem_keys {α : Type} (m : List (String × α)) (k : String)
    (h : k ∉ m.map Prod.fst) : lookupA m k = none := by
  induction m with
  | nil => rfl
  | cons hd tl ih =>
      obtain ⟨k0, v0⟩ := hd
      have h1 : k0 ≠ k := fun he => h (by simp [he])
      have h2 : k ∉ tl.map Prod.fst := fun hm => h (by simp [hm])
      simp [lookupA, h1, ih h2]

theorem not_mem_keys_of_lookupA_none {α : Type} (m : List (String × α)) (k : String)
    (h : lookupA m k = none) : k ∉ m.map Prod.fst := by
  induction m with
  | nil => simp
  | cons hd tl ih =>
      obtain ⟨k0, v0⟩ := hd
      by_cases hk : k0 = k
      · simp [lookupA, hk] at h
      · have h2 := ih (by simpa [lookupA, hk] using h)
        intro hmem
        rw [List.map_cons, List.mem_cons] at hmem
        rcases hmem with he | hm
        · exact hk he.symm
        · exact h2 hm

theorem lookupA_of_mem_nodup {α : Type} (m : List (String × α)) (k : String) (v : α)
    (hnd : (m.map Prod.fst).Nodup) (hmem : (k, v) ∈ m) : lookupA m k = some v := by
  induction m with
  | nil => simp at hmem
  | cons hd tl ih =>
      obtain ⟨k0, v0⟩ := hd
      rw [List.map_cons, List.nodup_cons] at hnd
      rcases List.mem_cons.mp hmem with h | h
      · have hk : k = k0 := congrArg Prod.fst h
        have hv : v = v0 := congrArg Prod.snd h
        simp [lookupA, hk.symm, hv.symm]
      · have hk : k0 ≠ k := by
          intro he; subst he
          exact hnd.1 (List.mem_map.mpr ⟨(k0, v), h, rfl⟩)
        simp [lookupA, hk, ih hnd.2 h]

/-! ## Reconciler — `deduplicate_items` and the merge pipeline (main.py) -/

/-- A tracking record (`WarehouseItem` in main.py): `id` is the monotonic
integer identity, `tracking_number` the business key, `payload` stands for
the open set of status/audit fields treated as opaque during merge. -/
structure WItem where
  id : Int
  tracking_number : String
  payload : String
deriving DecidableEq, Repr

/-- One iteration of the `deduplicate_items` loop: store `item` when its
key is absent or the stored record's id is strictly smaller. -/
def dedupInsert (m : List (String × WItem)) (item : WItem) : List (String × WItem) :=
  match lookupA m item.tracking_number with
  | none => setA m item.tracking_number item
  | some stored =>
      if stored.id < item.id then setA m item.tracking_number item else m

/-- Embeds `deduplicate_items` (main.py:232): fold the items into a dict
keyed by `tracking_number`, keeping the entry with the larger `id`, and
return the dict's values. -/
def deduplicate_items (items : List WItem) : List WItem :=
  (items.foldl dedupInsert []).map Prod.snd

/-- The reconciliation step of `sync_warehouse_data` (main.py:592-596):
`all_data = api_data + existing_data` then `deduplicate_items(all_data)`. -/
def reconcile (fresh existing : List WItem) : List WItem :=
  deduplicate_items (fresh ++ existing)

/-- Invariant of the dedup map: every entry is keyed by its record's
tracking number, and keys are pairwise distinct. -/
def DedupMapInv (m : List (String × WItem)) : Prop :=
  (∀ e ∈ m, e.2.tracking_number = e.1) ∧ (m.map Prod.fst).Nodup

theorem dedupInsert_inv (m : List (String × WItem)) (item : WItem)
    (h : DedupMapInv m) : DedupMapInv (dedupInsert m item) := by
  have hkey := h.1
  have hnd := h.2
  unfold dedupInsert
  have hset : DedupMapInv (setA m item.tracking_number item) := by
    constructor
    · intro e he
      rcases mem_setA m item.tracking_number item e he with h1 | h1
      · rw [h1]
      · exact hkey e h1
    · cases hl : lookupA m item.tracking_number with
      | none => rw [keys_setA_absent m _ _ hl]
                refine List.Nodup.append hnd (List.nodup_singleton _) ?_
                intro a ha hb
                simp at hb
                subst hb
                exact not_mem_keys_of_lookupA_none m _ hl ha
      | some stored =>
                rw [keys_setA_present m _ _ (by simp [hl])]
                exact hnd
  cases hl : lookupA m item.tracking_number with
  | none => simpa [hl] using hset
  | some stored =>
      by_cases hlt : stored.id < item.id
      · simpa [hl, hlt] using hset
      · simpa [hl, hlt] using h

theorem dedupFold_inv (items : List WItem) (m : List (String × WItem))
    (h : DedupMapInv m) : DedupMapInv (items.foldl dedupInsert m) := by
  induction items generalizing m with
  | nil => simpa using h
  | cons hd tl ih => exact ih (dedupInsert m hd) (dedupInsert_inv m hd h)

/-- Entries of the folded dedup map only ever grow in `id` at a fixed key. -/
theorem dedupInsert_id_mono (m : List (String × WItem)) (item : WItem)
    (k : String) (v : WItem) (hl : lookupA m k = some v) :
    ∃ w, lookupA (dedupInsert m item) k = some w ∧ v.id ≤ w.id := by
  unfold dedupInsert
  by_cases hk : item.tracking_number = k
  · subst hk
    rw [hl]
    by_cases hlt : v.id < item.id
    · exact ⟨item, by simp [hlt, lookupA_setA_self], le_of_lt hlt⟩
    · exact ⟨v, by simp [hlt, hl], le_refl _⟩
  · cases hl2 : lookupA m item.tracking_number with
    | none => exact ⟨v, by simp [lookupA_setA_other m _ _ _ hk, hl], le_refl _⟩
    | some stored =>
        by_cases hlt : stored.id < item.id
        · exact ⟨v, by simp [hlt, lookupA_setA_other m _ _ _ hk, hl], le_refl _⟩
        · exact ⟨v, by simp [hlt, hl], le_refl _⟩

/-- After inserting `item`, its key maps to a record with id ≥ `item.id`. -/
theorem dedupInsert_id_self (m : List (String × WItem)) (item : WItem) :
    ∃ w, lookupA (dedupInsert m item) item.tracking_number = some w ∧
      item.id ≤ w.id := by
  unfold dedupInsert
  cases hl : lookupA m item.tracking_number with
  | none => exact ⟨item, lookupA_setA_self m _ item, le_refl _⟩
  | some stored =>
      by_cases hlt : stored.id < item.id
      · exact ⟨item, by simp [hlt, lookupA_setA_self], le_refl _⟩
      · exact ⟨stored, by simp [hlt, hl], le_of_not_lt hlt⟩

theorem dedupFold_id_mono (items : List WItem) (m : List (String × WItem))
    (k : String) (v : WItem) (hl : lookupA m k = some v) :
    ∃ w, lookupA (items.foldl dedupInsert m) k = some w ∧ v.id ≤ w.id := by
  induction items generalizing m v with
  | nil => exact ⟨v, by simpa using hl, le_refl _⟩
  | cons hd tl ih =>
      obtain ⟨w1, hw1, hle1⟩ := dedupInsert_id_mono m hd k v hl
      obtain ⟨w2, hw2, hle2⟩ := ih (dedupInsert m hd) w1 hw1
      exact ⟨w2, by simpa using hw2, le_trans hle1 hle2⟩

/-- Every processed record leaves behind an entry at its key whose id is
at least its own. -/
theorem dedupFold_id_ge (items : List WItem) (m : List (String × WItem))
    (r : WItem) (hr : r ∈ items) :
    ∃ w, lookupA (items.foldl dedupInsert m) r.tracking_number = some w ∧
      r.id ≤ w.id := by
  induction items generalizing m with
  | nil => simp at hr
  | cons hd tl ih =>
      rcases List.mem_cons.mp hr with h | h
      · subst h
        obtain ⟨w1, hw1, hle1⟩ := dedupInsert_id_self m r
        obtain ⟨w2, hw2, hle2⟩ := dedupFold_id_mono tl (dedupInsert m r) _ w1 hw1
        exact ⟨w2, by simpa using hw2, le_trans hle1 hle2⟩
      · simpa using ih (dedupInsert m hd) h

/-- C1: for every pair of input lists (fresh, existing), the output of
reconciliation (`deduplicate_items` over `fresh ++ existing`) contains no
two records with equal `business_key` (tracking number). -/
theorem C1_reconcile_no_dup_business_key (fresh existing : List WItem) :
    (reconcile fresh existing).Pairwise
      (fun a b => a.tracking_number ≠ b.tracking_number) := by
  have hinv := dedupFold_inv (fresh ++ existing) [] ⟨by simp, by simp⟩
  obtain ⟨hkey, hnd⟩ := hinv
  unfold reconcile deduplicate_items
  rw [List.pairwise_map]
  rw [List.Nodup, List.pairwise_map] at hnd
  refine List.Pairwise.imp_of_mem ?_ hnd
  intro a b ha hb hne
  rw [hkey a ha, hkey b hb]
  exact hne

/-- C2 as written is false on the code: on an identity tie,
`deduplicate_items` keeps the record encountered EARLIER (the strict `<`
in main.py:240 never replaces the stored entry on equal ids), not later.
Two records sharing key "T1" and identity 1 reconcile to the first. -/
theorem C2_tie_counterexample :
    reconcile [⟨1, "T1", "first"⟩] [⟨1, "T1", "second"⟩] =
      [⟨1, "T1", "first"⟩] ∧
    (⟨1, "T1", "first"⟩ : WItem) ≠ ⟨1, "T1", "second"⟩ := by
  constructor
  · rfl
  · decide

/-- C2 (amended): the output record for a key has identity ≥ every input
record with that key; when identities are EQUAL, the record encountered
earlier in iteration order is kept. -/
theorem C2_reconcile_preference (fresh existing : List WItem) :
    (∀ r ∈ fresh ++ existing, ∀ o ∈ reconcile fresh existing,
        o.tracking_number = r.tracking_number → r.id ≤ o.id) ∧
    (∀ a b : WItem, a.tracking_number = b.tracking_number → a.id = b.id →
        reconcile [a] [b] = [a]) := by
  constructor
  · intro r hr o ho hko
    have hinv := dedupFold_inv (fresh ++ existing) [] ⟨by simp, by simp⟩
    obtain ⟨hkey, hnd⟩ := hinv
    obtain ⟨w, hw, hle⟩ := dedupFold_id_ge (fresh ++ existing) [] r hr
    unfold reconcile deduplicate_items at ho
    obtain ⟨e, he, heo⟩ := List.mem_map.mp ho
    have hek : e.2.tracking_number = e.1 := hkey e he
    have hlo : lookupA ((fresh ++ existing).foldl dedupInsert []) e.1 = some e.2 := by
      exact lookupA_of_mem_nodup _ e.1 e.2 hnd (by simpa using he)
    have hke : e.1 = r.tracking_number := by
      rw [← hek, heo, hko]
    rw [hke] at hlo
    rw [hlo] at hw
    have : w = e.2 := by injection hw.symm
    rw [← heo, ← this]
    exact hle
  · intro a b hk hid
    unfold reconcile deduplicate_items
    simp [dedupInsert, lookupA, setA, hk, hid]

/-- Witness for C2 (amended) at concrete records: identity 5 vs 7 on key
"T1" keeps id 7; an exact tie (id 3, key "T2") keeps the earlier record. -/
theorem C2_reconcile_preference_witness :
    ((⟨5, "T1", "x"⟩ : WItem).id ≤ (⟨7, "T1", "y"⟩ : WItem).id) ∧
    reconcile [⟨3, "T2", "p"⟩] [⟨3, "T2", "q"⟩] = [⟨3, "T2", "p"⟩] := by
  constructor
  · exact (C2_reconcile_preference [⟨5, "T1", "x"⟩] [⟨7, "T1", "y"⟩]).1
      ⟨5, "T1", "x"⟩ (by decide) ⟨7, "T1", "y"⟩ (by decide) rfl
  · exact (C2_reconcile_preference [] []).2 ⟨3, "T2", "p"⟩ ⟨3, "T2", "q"⟩ rfl rfl

/-! ## TokenStore — auth.py -/

/-- The module-level token dictionaries of auth.py (lines 11-14). -/
structure AuthState where
  valid_tokens : List (String × String)
  external_api_tokens : List (String × String)
  token_timestamps : List (String × Nat)
  token_credentials : List (String × (String × String))
deriving DecidableEq, Repr

/-- The initial, empty in-memory token store. -/
def emptyAuthState : AuthState := ⟨[], [], [], []⟩

/-- Constant `EXTERNAL_TOKEN_EXPIRY_HOURS = 1` (auth.py:15). -/
def EXTERNAL_TOKEN_EXPIRY_HOURS : Nat := 1

/-- The fixed TTL `timedelta(hours=EXTERNAL_TOKEN_EXPIRY_HOURS)`, in
seconds (time is embedded as a `Nat` of seconds). -/
def expirySeconds : Nat := EXTERNAL_TOKEN_EXPIRY_HOURS * 3600

/-- Embeds `create_token` (auth.py:18-40); `token` stands for the random
`secrets.token_urlsafe(32)` value and `now` for `datetime.now()`. The
empty string is falsy in Python, so an empty external token is not stored. -/
def create_token (s : AuthState) (now : Nat) (token username : String)
    (external_api_token : Option String)
    (credentials : Option (String × String)) : AuthState :=
  let s1 : AuthState :=
    { s with valid_tokens := setA s.valid_tokens token username,
             token_timestamps := setA s.token_timestamps token now }
  let s2 : AuthState :=
    match external_api_token with
    | some e =>
        if e = "" then s1
        else { s1 with external_api_tokens := setA s1.external_api_tokens token e }
    | none => s1
  match credentials with
  | some c => { s2 with token_credentials := setA s2.token_credentials token c }
  | none => s2

/-- Embeds `set_external_api_token` (auth.py:43-47): only stores for a
known session token, overwriting the prior token and its timestamp. -/
def set_external_api_token (s : AuthState) (now : Nat)
    (local_token external_api_token : String) : AuthState :=
  if (lookupA s.valid_tokens local_token).isSome then
    { s with
        external_api_tokens := setA s.external_api_tokens local_token external_api_token,
        token_timestamps := setA s.token_timestamps local_token now }
  else s

/-- Embeds `get_external_api_token` (auth.py:50-52). -/
def get_external_api_token (s : AuthState) (local_token : String) : Option String :=
  lookupA s.external_api_tokens local_token

/-- Embeds `is_token_expired` (auth.py:55-62): keyed on the recorded
timestamp, with `datetime.now() >= timestamp + timedelta(hours=1)`. -/
def is_token_expired (s : AuthState) (now : Nat) (local_token : String) : Bool :=
  match lookupA s.token_timestamps local_token with
  | none => true
  | some ts => decide (ts + expirySeconds ≤ now)

/-- Embeds Python `str.replace("Bearer ", "")`: scan left to right,
removing each non-overlapping occurrence of the 7-character pattern. -/
def replaceBearer : List Char → List Char
  | 'B' :: 'e' :: 'a' :: 'r' :: 'e' :: 'r' :: ' ' :: rest => replaceBearer rest
  | c :: rest => c :: replaceBearer rest
  | [] => []

/-- Embeds Python `str.strip()`: drop whitespace from both ends. -/
def stripEnds (l : List Char) : List Char :=
  ((l.dropWhile Char.isWhitespace).reverse.dropWhile Char.isWhitespace).reverse

/-- The token normalization `authorization.replace("Bearer ", "").strip()`
(auth.py:74 and auth.py:121). -/
def stripBearer (a : String) : String :=
  String.mk (stripEnds (replaceBearer a.toList))

/-- Embeds `refresh_external_api_token` (auth.py:85-104). The upstream
login endpoint is an oracle `login : username → password → Option
access_token`; `none` covers both a raised exception and a response with
no usable access_token (both paths return None in the source). Returns
the new state, the refreshed token, and whether a network call was made. -/
def refresh_external_api_token (login : String → String → Option String)
    (s : AuthState) (now : Nat) (local_token : String) :
    AuthState × Option String × Bool :=
  match lookupA s.token_credentials local_token with
  | none => (s, none, false)
  | some (username, password) =>
      match login username password with
      | none => (s, none, true)
      | some external_token =>
          if external_token = "" then (s, none, true)
          else (set_external_api_token s now local_token external_token,
                some external_token, true)

/-- Outcome of `get_external_api_authorization`: a resolved Authorization
header value, or an HTTPException with status 401 carrying the detail. -/
inductive AuthOutcome where
  | ok (header : String)
  | httpError401 (detail : String)
deriving DecidableEq, Repr

/-- Embeds `get_external_api_authorization` (auth.py:107-148). Besides the
new state and the outcome, the result records whether the upstream login
endpoint was contacted (only possible through the refresh path). -/
def get_external_api_authorization (login : String → String → Option String)
    (s : AuthState) (now : Nat) (authorization : Option String) :
    AuthState × AuthOutcome × Bool :=
  match authorization with
  | none => (s, .httpError401 "缺少认证token", false)
  | some a =>
      if a = "" then (s, .httpError401 "缺少认证token", false)
      else
        let token := stripBearer a
        match lookupA s.valid_tokens token with
        | none => (s, .ok ("Bearer " ++ token), false)
        | some _ =>
            if is_token_expired s now token then
              match refresh_external_api_token login s now token with
              | (s2, some t, called) => (s2, .ok ("Bearer " ++ t), called)
              | (s2, none, called) =>
                  (s2, .httpError401 "外部API token已过期且无法自动刷新，请重新登录", called)
            else
              match get_external_api_token s token with
              | some e => (s, .ok ("Bearer " ++ e), false)
              | none => (s, .httpError401 "未找到外部API token，请重新登录", false)

/-- Embeds `verify_credentials` (auth.py:165-175), with the configured
defaults (config.py:22-23) passed explicitly. -/
def verify_credentials (default_username default_password : String)
    (username password : String) : Bool :=
  let rewritten :=
    if username = "" ∧ password = "123456"
    then (default_username, default_password)
    else (username, password)
  decide (rewritten.1 = default_username ∧ rewritten.2 = default_password)

/-- C4 as written is false on the code: `create_token` records a timestamp
even when no upstream token is stored, so a session token with NO upstream
token recorded is reported not expired while its timestamp is fresh,
against the claim's "true exactly when no upstream token is recorded or
the TTL elapsed". -/
theorem C4_expiry_counterexample :
    get_external_api_token
      (create_token emptyAuthState 100 "tok" "alice" none none) "tok" = none ∧
    is_token_expired
      (create_token emptyAuthState 100 "tok" "alice" none none) 100 "tok" = false := by
  constructor
  · rfl
  · rfl

/-- C4 (amended): `is_token_expired` is true exactly when no TIMESTAMP is
recorded for the session token (not: no upstream token), or the current
time is at least the recorded timestamp plus the fixed 1-hour TTL; and a
token whose upstream token is attached at time T is reported not expired
at T + 59m59s and expired at exactly T + 1h00m00s. -/
theorem C4_token_expiry (s : AuthState) (now : Nat) (tok : String) :
    (is_token_expired s now tok = true ↔
      lookupA s.token_timestamps tok = none ∨
      ∃ ts, lookupA s.token_timestamps tok = some ts ∧ ts + 3600 ≤ now) ∧
    (∀ T ext, (lookupA s.valid_tokens tok).isSome = true →
      is_token_expired (set_external_api_token s T tok ext) (T + 3599) tok = false ∧
      is_token_expired (set_external_api_token s T tok ext) (T + 3600) tok = true) := by
  constructor
  · cases hl : lookupA s.token_timestamps tok with
    | none => simp [is_token_expired, hl]
    | some ts =>
        simp [is_token_expired, hl, expirySeconds, EXTERNAL_TOKEN_EXPIRY_HOURS]
  · intro T ext hv
    constructor
    · simp [is_token_expired, set_external_api_token, hv, lookupA_setA_self,
            expirySeconds, EXTERNAL_TOKEN_EXPIRY_HOURS]
    · simp [is_token_expired, set_external_api_token, hv, lookupA_setA_self,
            expirySeconds, EXTERNAL_TOKEN_EXPIRY_HOURS]

/-- Witness for C4 (amended): a concrete store where the upstream token is
attached at time 1000 flips from not-expired to expired at 1000 + 3600. -/
theorem C4_token_expiry_witness :
    is_token_expired
      (set_external_api_token
        (create_token emptyAuthState 0 "tok" "alice" none none) 1000 "tok" "E")
      (1000 + 3599) "tok" = false ∧
    is_token_expired
      (set_external_api_token
        (create_token emptyAuthState 0 "tok" "alice" none none) 1000 "tok" "E")
      (1000 + 3600) "tok" = true :=
  (C4_token_expiry (create_token emptyAuthState 0 "tok" "alice" none none)
    0 "tok").2 1000 "E" (by rfl)

/-- C6: resolving authorization for a known session token that is expired
and has no stored credential pair fails with the 401 refresh-failure
detail, leaves the store unchanged, and performs no network call — the
refresh layer returns none immediately instead of raising. -/
theorem C6_refresh_fallback (login : String → String → Option String)
    (s : AuthState) (now : Nat) (a : String) (ha : a ≠ "")
    (hv : (lookupA s.valid_tokens (stripBearer a)).isSome = true)
    (he : is_token_expired s now (stripBearer a) = true)
    (hc : lookupA s.token_credentials (stripBearer a) = none) :
    get_external_api_authorization login s now (some a) =
      (s, AuthOutcome.httpError401 "外部API token已过期且无法自动刷新，请重新登录", false) := by
  obtain ⟨u, hu⟩ := Option.isSome_iff_exists.mp hv
  unfold get_external_api_authorization
  simp [ha, hu, he, refresh_external_api_token, hc]

/-- Witness for C6: a session token created with an upstream token but no
credentials, queried exactly at its expiry instant, yields the 401 with no
network call even under a login oracle that would succeed. -/
theorem C6_refresh_fallback_witness :
    get_external_api_authorization (fun _ _ => some "NEW")
      (create_token emptyAuthState 0 "tok" "alice" (some "OLD") none)
      3600 (some "tok") =
      (create_token emptyAuthState 0 "tok" "alice" (some "OLD") none,
       AuthOutcome.httpError401 "外部API token已过期且无法自动刷新，请重新登录", false) :=
  C6_refresh_fallback (fun _ _ => some "NEW")
    (create_token emptyAuthState 0 "tok" "alice" (some "OLD") none)
    3600 "tok" (by decide) (by rfl) (by rfl) (by rfl)

/-- C8 as written is false on the code: an unknown supplied token "abc" is
not returned unchanged; auth.py:125 returns it re-wrapped as
"Bearer abc". -/
theorem C8_passthrough_counterexample :
    get_external_api_authorization (fun _ _ => none) emptyAuthState 0 (some "abc") =
      (emptyAuthState, AuthOutcome.ok "Bearer abc", false) ∧
    ("Bearer abc" : String) ≠ "abc" := by
  constructor
  · rfl
  · decide

/-- C8 (amended): for a supplied token that is not a known session token,
resolution performs no stored-token lookup, no refresh and no network
call, and returns the token normalized into a Bearer header: every
"Bearer " occurrence removed, surrounding whitespace stripped, and a
single "Bearer " prefix prepended. -/
theorem C8_passthrough (login : String → String → Option String)
    (s : AuthState) (now : Nat) (a : String) (ha : a ≠ "")
    (hv : lookupA s.valid_tokens (stripBearer a) = none) :
    get_external_api_authorization login s now (some a) =
      (s, AuthOutcome.ok ("Bearer " ++ stripBearer a), false) := by
  unfold get_external_api_authorization
  simp [ha, hv]

/-- Witness for C8 (amended): the raw upstream token "raw0" supplied as
"Bearer raw0" against an empty store resolves to "Bearer raw0". -/
theorem C8_passthrough_witness :
    get_external_api_authorization (fun _ _ => none) emptyAuthState 5
      (some "Bearer raw0") =
      (emptyAuthState, AuthOutcome.ok ("Bearer " ++ stripBearer "Bearer raw0"),
       false) :=
  C8_passthrough (fun _ _ => none) emptyAuthState 5 "Bearer raw0"
    (by decide) (by rfl)

/-- C10: local credential verification accepts exactly the configured
default pair and ("", "123456") — the latter silently rewritten to the
defaults before comparison — and the pair ("uni_staff", "123456") named in
the code's comment is rejected whenever the configured defaults differ
from it. -/
theorem C10_verify_credentials (du dp u p : String) :
    (verify_credentials du dp u p = true ↔
      (u = du ∧ p = dp) ∨ (u = "" ∧ p = "123456")) ∧
    ((du, dp) ≠ ("uni_staff", "123456") →
      verify_credentials du dp "uni_staff" "123456" = false) := by
  constructor
  · by_cases hu : u = "" ∧ p = "123456"
    · simp [verify_credentials, hu]
    · simp [verify_credentials, hu]
  · intro hne
    simp [verify_credentials]
    intro h1 h2
    exact absurd (by rw [h1, h2]) hne

/-- Witness for C10 at the configured defaults of config.py ("admin",
"40"): the default pair is accepted and ("uni_staff", "123456") is
rejected. -/
theorem C10_verify_credentials_witness :
    verify_credentials "admin" "40" "admin" "40" = true ∧
    verify_credentials "admin" "40" "uni_staff" "123456" = false := by
  constructor
  · exact (C10_verify_credentials "admin" "40" "admin" "40").1.mpr
      (Or.inl ⟨rfl, rfl⟩)
  · exact (C10_verify_credentials "admin" "40" "admin" "40").2 (by decide)

/-! ## UpstreamClient — services/external_api.py -/

/-- The error kinds surfaced by `ExternalAPIClient._request`
(external_api.py:26-64) as HTTPExceptions: Unauthenticated (401),
UpstreamRejected (the upstream status code with its detail), and
UpstreamUnreachable (503 on a connection/timeout error). -/
inductive ErrorKind where
  | unauthenticated
  | upstreamRejected (statusCode : Nat) (detail : String)
  | upstreamUnreachable (msg : String)
deriving DecidableEq, Repr

/-- The observable outcome of the underlying `httpx` call: a response with
its status code, whether its content-type starts with "application/json",
the `detail` field when the body parsed as JSON and carried one, and its
body; or a raised `httpx.RequestError`. -/
inductive HttpOutcome where
  | response (statusCode : Nat) (contentTypeJson : Bool)
      (jsonDetail : Option String) (body : String)
  | requestError (msg : String)
deriving DecidableEq, Repr

/-- The error-detail extraction of external_api.py:46-55:
`error_data.get("detail", "请求失败")`, where `error_data` stays empty
unless the content type is JSON and the body parses with a detail. -/
def extract_detail (contentTypeJson : Bool) (jsonDetail : Option String) : String :=
  if contentTypeJson then jsonDetail.getD "请求失败" else "请求失败"

/-- Embeds `ExternalAPIClient._request` (external_api.py:26-64): status
401 maps to Unauthenticated, every other status except 200 to an
HTTPException carrying the upstream status and detail, a connection error
to the 503; only a 200 response body is returned as a success. -/
def api_request (outcome : HttpOutcome) : Except ErrorKind String :=
  match outcome with
  | .requestError msg =>
      .error (.upstreamUnreachable ("无法连接到外部API: " ++ msg))
  | .response statusCode contentTypeJson jsonDetail body =>
      if statusCode = 401 then .error .unauthenticated
      else if statusCode ≠ 200 then
        .error (.upstreamRejected statusCode (extract_detail contentTypeJson jsonDetail))
      else .ok body

/-- C9 as written is false on the code: a 2xx status other than 200 is not
returned as a success — external_api.py:45 checks `status_code != 200`,
so a 201 response raises UpstreamRejected(201) instead of succeeding. -/
theorem C9_status_counterexample :
    api_request (.response 201 false none "created") =
      .error (.upstreamRejected 201 "请求失败") ∧
    api_request (.response 201 false none "created") ≠ .ok "created" := by
  constructor
  · rfl
  · exact fun hcontra => Except.noConfusion hcontra

/-- C9 (amended): connection/timeout errors map to UpstreamUnreachable, an
upstream 401 to Unauthenticated, every other status EXCEPT 200 (other 2xx
included) to UpstreamRejected carrying the upstream status code and
detail, and exactly the status-200 responses are returned as successes. -/
theorem C9_request_errors (statusCode : Nat) (ct : Bool) (jd : Option String)
    (body : String) :
    (∀ msg, api_request (.requestError msg) =
      .error (.upstreamUnreachable ("无法连接到外部API: " ++ msg))) ∧
    (statusCode = 401 →
      api_request (.response statusCode ct jd body) = .error .unauthenticated) ∧
    (statusCode ≠ 401 → statusCode ≠ 200 →
      api_request (.response statusCode ct jd body) =
        .error (.upstreamRejected statusCode (extract_detail ct jd))) ∧
    api_request (.response 200 ct jd body) = .ok body := by
  refine ⟨fun msg => rfl, ?_, ?_, rfl⟩
  · intro h; simp [api_request, h]
  · intro h1 h2; simp [api_request, h1, h2]

/-- Witness for C9 (amended): a 401 yields Unauthenticated and a 503 with
a JSON detail yields UpstreamRejected carrying code and message. -/
theorem C9_request_errors_witness :
    api_request (.response 401 false none "x") = .error .unauthenticated ∧
    api_request (.response 503 true (some "down") "x") =
      .error (.upstreamRejected 503 "down") := by
  constructor
  · exact (C9_request_errors 401 false none "x").2.1 rfl
  · exact (C9_request_errors 503 true (some "down") "x").2.2.1
      (by decide) (by decide)

/-! ## SourceFetcher — get_warehouse_data pagination -/

/-- Outcome of one `get_scan_records` call for a page: the item list
extracted by `response.get("data") or response.get("items") or []`
together with `pagination.get("total_pages", 1)`, or a raised exception. -/
inductive PageOutcome where
  | ok (items : List WItem) (total_pages : Nat)
  | exn (msg : String)

/-- Items a single page contributes to the collected list: a page whose
request raised contributes nothing (it is logged and skipped). -/
def page_items (oracle : Nat → PageOutcome) (p : Nat) : List WItem :=
  match oracle p with
  | .exn _ => []
  | .ok items _ => items

/-- The page loop of external_api.py:156-174: one request per page in the
given list; a page whose request raises is skipped, the loop continues.
Returns the collected items and the trace of pages requested. -/
def fetch_pages (oracle : Nat → PageOutcome) : List Nat → List WItem × List Nat
  | [] => ([], [])
  | p :: ps =>
      let rest := fetch_pages oracle ps
      match oracle p with
      | .exn _ => (rest.1, p :: rest.2)
      | .ok items _ => (items ++ rest.1, p :: rest.2)

/-- Per-warehouse fetch result (external_api.py:176-193). -/
structure WarehouseResult where
  success : Bool
  warehouse : String
  items : List WItem
  total_items : Nat
  error : Option String
deriving DecidableEq, Repr

/-- Embeds `ExternalAPIClient.get_warehouse_data`
(external_api.py:114-193) over a page oracle: request page 1, read
total_pages, then request pages `range(2, total_pages + 1)` (embedded as
`List.range' 2 (total_pages - 1)`); an exception on the first page fails
the whole warehouse, later pages fail individually. The second component
is the trace of requested pages. -/
def get_warehouse_data (oracle : Nat → PageOutcome) (warehouse : String) :
    WarehouseResult × List Nat :=
  match oracle 1 with
  | .exn msg => (⟨false, warehouse, [], 0, some msg⟩, [1])
  | .ok items1 total_pages =>
      let rest := fetch_pages oracle (List.range' 2 (total_pages - 1))
      let all_items := items1 ++ rest.1
      (⟨true, warehouse, all_items, all_items.length, none⟩, 1 :: rest.2)

theorem fetch_pages_spec (oracle : Nat → PageOutcome) (ps : List Nat) :
    fetch_pages oracle ps = ((ps.map (page_items oracle)).flatten, ps) := by
  induction ps with
  | nil => rfl
  | cons p ps ih =>
      cases h : oracle p <;> simp [fetch_pages, page_items, h, ih]

/-- Concrete upstream for the C7 counterexample: three pages reported,
page 2 empty, page 3 still holding an item. -/
def oracleZero : Nat → PageOutcome := fun page =>
  if page = 1 then .ok [⟨1, "A", ""⟩] 3
  else if page = 2 then .ok [] 3
  else .ok [⟨2, "B", ""⟩] 3

/-- C7 as written is false on the code: the loop at external_api.py:156
has no early termination on an empty page — after page 2 returns zero
items, page 3 is still requested and its item is included. -/
theorem C7_no_early_stop_counterexample :
    (get_warehouse_data oracleZero "JFK").2 = [1, 2, 3] ∧
    (⟨2, "B", ""⟩ : WItem) ∈ (get_warehouse_data oracleZero "JFK").1.items := by
  constructor
  · rfl
  · decide

/-- C7 (amended): the per-source fetch does NOT stop at a zero-item page —
when page 1 succeeds reporting total_pages, every page from 2 to
total_pages is requested regardless of page contents, and the result is
the concatenation of all fetched pages' items in page order. -/
theorem C7_fetch_all_pages (oracle : Nat → PageOutcome) (warehouse : String)
    (items1 : List WItem) (total_pages : Nat)
    (h : oracle 1 = .ok items1 total_pages) :
    (get_warehouse_data oracle warehouse).2 =
      1 :: List.range' 2 (total_pages - 1) ∧
    (get_warehouse_data oracle warehouse).1.items =
      items1 ++ ((List.range' 2 (total_pages - 1)).map (page_items oracle)).flatten := by
  simp [get_warehouse_data, h, fetch_pages_spec]

/-- Witness for C7 (amended) at the three-page upstream with an empty
page 2: pages [1, 2, 3] are requested and both items survive. -/
theorem C7_fetch_all_pages_witness :
    (get_warehouse_data oracleZero "JFK").2 = 1 :: List.range' 2 2 ∧
    (get_warehouse_data oracleZero "JFK").1.items =
      [⟨1, "A", ""⟩] ++ ((List.range' 2 2).map (page_items oracleZero)).flatten :=
  C7_fetch_all_pages oracleZero "JFK" [⟨1, "A", ""⟩] 3 (by rfl)

/-! ## SyncOrchestrator — get_all_warehouse_data -/

/-- Aggregate result of `get_all_warehouse_data` (external_api.py:234-241). -/
structure AllWarehouseData where
  results : List WarehouseResult
  all_items : List WItem
  total_items : Nat
  successful_count : Nat
  failed_count : Nat
  total_warehouses : Nat
deriving DecidableEq, Repr

/-- One iteration of the `get_all_warehouse_data` loop
(external_api.py:218-232) over the accumulator
(results, all_items, successful_count, failed_count). -/
def syncStep (oracle : String → Nat → PageOutcome)
    (acc : List WarehouseResult × List WItem × Nat × Nat) (w : String) :
    List WarehouseResult × List WItem × Nat × Nat :=
  let result := (get_warehouse_data (oracle w) w).1
  (acc.1 ++ [result],
   if result.success then acc.2.1 ++ result.items else acc.2.1,
   if result.success then acc.2.2.1 + 1 else acc.2.2.1,
   if result.success then acc.2.2.2 else acc.2.2.2 + 1)

/-- Embeds `ExternalAPIClient.get_all_warehouse_data`
(external_api.py:195-241): iterate the warehouses, fetch each through
`get_warehouse_data` (whose own try/except means it never raises), append
its per-source result, and accumulate items of successful sources and the
success/failure counts. The page oracle is per-warehouse. -/
def get_all_warehouse_data (oracle : String → Nat → PageOutcome)
    (warehouses : List String) : AllWarehouseData :=
  let final := warehouses.foldl (syncStep oracle) ([], [], 0, 0)
  ⟨final.1, final.2.1, final.2.1.length, final.2.2.1, final.2.2.2,
   warehouses.length⟩

theorem syncStep_success (oracle : String → Nat → PageOutcome)
    (acc : List WarehouseResult × List WItem × Nat × Nat) (w : String)
    (hs : (get_warehouse_data (oracle w) w).1.success = true) :
    syncStep oracle acc w =
      (acc.1 ++ [(get_warehouse_data (oracle w) w).1],
       acc.2.1 ++ (get_warehouse_data (oracle w) w).1.items,
       acc.2.2.1 + 1, acc.2.2.2) := by
  simp [syncStep, hs]

theorem syncStep_failure (oracle : String → Nat → PageOutcome)
    (acc : List WarehouseResult × List WItem × Nat × Nat) (w : String)
    (hs : (get_warehouse_data (oracle w) w).1.success = false) :
    syncStep oracle acc w =
      (acc.1 ++ [(get_warehouse_data (oracle w) w).1],
       acc.2.1, acc.2.2.1, acc.2.2.2 + 1) := by
  simp [syncStep, hs]

theorem length_filter_not_split {α : Type} (p : α → Bool) (l : List α) :
    (l.filter p).length + (l.filter (fun a => !p a)).length = l.length := by
  induction l with
  | nil => rfl
  | cons hd tl ih => by_cases h : p hd <;> simp [List.filter_cons, h] <;> omega

theorem get_all_fold_spec (oracle : String → Nat → PageOutcome)
    (ws : List String) (rs : List WarehouseResult) (its : List WItem)
    (sc fc : Nat) :
    ws.foldl (syncStep oracle) (rs, its, sc, fc) =
      (rs ++ ws.map (fun w => (get_warehouse_data (oracle w) w).1),
       its ++ (((ws.map (fun w => (get_warehouse_data (oracle w) w).1)).filter
                  (fun r => r.success)).map (fun r => r.items)).flatten,
       sc + ((ws.map (fun w => (get_warehouse_data (oracle w) w).1)).filter
               (fun r => r.success)).length,
       fc + ((ws.map (fun w => (get_warehouse_data (oracle w) w).1)).filter
               (fun r => !r.success)).length) := by
  induction ws generalizing rs its sc fc with
  | nil => simp
  | cons w ws ih =>
      rw [List.foldl_cons]
      cases hs : (get_warehouse_data (oracle w) w).1.success
      · rw [syncStep_failure oracle (rs, its, sc, fc) w hs, ih]
        simp [List.filter_cons, hs, List.append_assoc]
        omega
      · rw [syncStep_success oracle (rs, its, sc, fc) w hs, ih]
        simp [List.filter_cons, hs, List.append_assoc]
        omega

/-- C3: each source's entry in the multi-source sync result equals its own
standalone fetch — a failing source is reported in its own entry and
neither raises nor affects any other source's full record set; the
combined items are the concatenation of all successful sources' items and
the success/failure counts partition the sources. -/
theorem C3_partial_failure_isolation (oracle : String → Nat → PageOutcome)
    (warehouses : List String) :
    (get_all_warehouse_data oracle warehouses).results =
      warehouses.map (fun w => (get_warehouse_data (oracle w) w).1) ∧
    (get_all_warehouse_data oracle warehouses).all_items =
      (((warehouses.map (fun w => (get_warehouse_data (oracle w) w).1)).filter
          (fun r => r.success)).map (fun r => r.items)).flatten ∧
    (get_all_warehouse_data oracle warehouses).successful_count +
      (get_all_warehouse_data oracle warehouses).failed_count =
        warehouses.length := by
  have hf := get_all_fold_spec oracle warehouses [] [] 0 0
  have hsplit := length_filter_not_split
    (fun r : WarehouseResult => r.success)
    (warehouses.map (fun w => (get_warehouse_data (oracle w) w).1))
  rw [List.length_map] at hsplit
  refine ⟨?_, ?_, ?_⟩
  · simp only [get_all_warehouse_data, hf]
    simp
  · simp only [get_all_warehouse_data, hf]
    simp
  · simp only [get_all_warehouse_data, hf]
    simp
    omega

/-! ## StorageWriter — Database.save_consjob_data -/

/-- Embeds `Database.save_consjob_data` (database.py:67-140) over a
per-record write oracle standing for the per-item
`INSERT ... ON CONFLICT ... DO UPDATE` call: `write item = false` models a
raised exception for that record, which is logged and skipped
(`continue`); each success increments the returned count. -/
def save_consjob_data (write : WItem → Bool) (items : List WItem) : Nat :=
  items.foldl (fun count item => if write item then count + 1 else count) 0

theorem save_count_step (write : WItem → Bool) (items : List WItem) (n : Nat) :
    items.foldl (fun count item => if write item then count + 1 else count) n =
      n + (items.filter write).length := by
  induction items generalizing n with
  | nil => simp
  | cons hd tl ih =>
      by_cases h : write hd
      · simp [List.filter_cons, h, ih]
        omega
      · simp [List.filter_cons, h, ih]

theorem save_count_spec (write : WItem → Bool) (items : List WItem) :
    save_consjob_data write items = (items.filter write).length := by
  simpa using save_count_step write items 0

theorem filter_split_length (write : WItem → Bool) (items : List WItem) :
    (items.filter write).length +
      (items.filter (fun i => !write i)).length = items.length := by
  induction items with
  | nil => rfl
  | cons hd tl ih =>
      by_cases h : write hd <;> simp [List.filter_cons, h] <;> omega

/-- C5: when exactly one record of a batch fails its write, every other
record is persisted and counted — the returned count is the batch size
minus one, never zero; the failing record is logged and skipped without
aborting the rest of the batch. -/
theorem C5_single_failure_isolated (write : WItem → Bool) (items : List WItem)
    (h : (items.filter (fun i => !write i)).length = 1) :
    save_consjob_data write items = items.length - 1 := by
  rw [save_count_spec]
  have hs := filter_split_length write items
  omega

/-- Witness for C5: a concrete batch of three records where exactly the
record with id 2 fails writes the other two (count 3 - 1). -/
theorem C5_single_failure_isolated_witness :
    save_consjob_data (fun i => decide (i.id ≠ 2))
      [⟨1, "a", ""⟩, ⟨2, "b", ""⟩, ⟨3, "c", ""⟩] = 3 - 1 :=
  C5_single_failure_isolated (fun i => decide (i.id ≠ 2))
    [⟨1, "a", ""⟩, ⟨2, "b", ""⟩, ⟨3, "c", ""⟩] (by decide)
